import Mathlib

/-!
# Pod template synthesis of the Doris operator

A shallow embedding of `pkg/common/utils/resource/pod.go`: the functions that
turn a cluster specification and a role tag into a pod template, a main
container, an init container and an environment.

Conventions of the embedding.

* Go slices are Lean lists; a nil slice and an empty slice are both `[]`.
* Go pointers that the code tests against nil, or leaves unset in a composite
  literal, are `Option`s.
* A nil-pointer dereference ends the Go function by a run-time panic; a
  function that can reach one returns `Option`, and `none` is the panic.
* `int32` values are `Int`s (the code does no arithmetic on them).
* Log calls (`klog.Infof`, `klog.Errorf`) have no effect on the result and are
  left out; the branches that only log are kept.
-/

namespace PodResource

/-! ## Kubernetes core types (the fields the file reads or writes) -/

/-- The `corev1.ObjectFieldSelector`: the path of a runtime-provided field. -/
structure ObjectFieldSelector where
  FieldPath : String
deriving DecidableEq, Repr

/-- The `corev1.EnvVarSource`; only `FieldRef` is ever set by the file. -/
structure EnvVarSource where
  FieldRef : Option ObjectFieldSelector := none
deriving DecidableEq, Repr

/-- The `corev1.EnvVar`: a name with a literal value or a value source. -/
structure EnvVar where
  Name : String
  Value : String := ""
  ValueFrom : Option EnvVarSource := none
deriving DecidableEq, Repr

/-- The `corev1.EmptyDirVolumeSource`, built with no field set. -/
structure EmptyDirVolumeSource where
deriving DecidableEq, Repr

/-- The `corev1.PersistentVolumeClaimVolumeSource`. -/
structure PersistentVolumeClaimVolumeSource where
  ClaimName : String
deriving DecidableEq, Repr

/-- The `corev1.LocalObjectReference`. -/
structure LocalObjectReference where
  Name : String
deriving DecidableEq, Repr

/-- The `corev1.ConfigMapVolumeSource`. -/
structure ConfigMapVolumeSource where
  LocalObjectReference : LocalObjectReference
deriving DecidableEq, Repr

/-- The `corev1.VolumeSource`: each kind of backing is a pointer field. -/
structure VolumeSource where
  EmptyDir : Option EmptyDirVolumeSource := none
  PersistentVolumeClaim : Option PersistentVolumeClaimVolumeSource := none
  ConfigMap : Option ConfigMapVolumeSource := none
deriving DecidableEq, Repr

/-- The `corev1.Volume`; its zero value has an empty name and no source. -/
structure Volume where
  Name : String := ""
  VolumeSource : VolumeSource := {}
deriving DecidableEq, Repr

/-- The `corev1.VolumeMount`; its zero value has empty name and path. -/
structure VolumeMount where
  Name : String := ""
  MountPath : String := ""
deriving DecidableEq, Repr

/-- The `intstr.Type`: which member of an `IntOrString` is meant. -/
inductive IntstrType where
  | Int
  | String
deriving DecidableEq, Repr

/-- The `intstr.IntOrString`; `Type_` is its field `Type`. -/
structure IntOrString where
  Type_ : IntstrType := IntstrType.Int
  IntVal : Int := 0
  StrVal : String := ""
deriving DecidableEq, Repr

/-- The `corev1.HTTPGetAction`. -/
structure HTTPGetAction where
  Path : String
  Port : IntOrString
deriving DecidableEq, Repr

/-- The `corev1.ProbeHandler`; only `HTTPGet` is ever set by the file. -/
structure ProbeHandler where
  HTTPGet : Option HTTPGetAction := none
deriving DecidableEq, Repr

/-- The `corev1.Probe`. -/
structure Probe where
  ProbeHandler : ProbeHandler := {}
  PeriodSeconds : Int := 0
  FailureThreshold : Int := 0
deriving DecidableEq, Repr

/-- The `corev1.ExecAction`. -/
structure ExecAction where
  Command : List String
deriving DecidableEq, Repr

/-- The `corev1.LifecycleHandler`; only `Exec` is ever set by the file. -/
structure LifecycleHandler where
  Exec : Option ExecAction := none
deriving DecidableEq, Repr

/-- The `corev1.Lifecycle`. -/
structure Lifecycle where
  PostStart : Option LifecycleHandler := none
  PreStop : Option LifecycleHandler := none
deriving DecidableEq, Repr

/-- The `corev1.SecurityContext`; only `Privileged` is ever set by the file. -/
structure SecurityContext where
  Privileged : Option Bool := none
deriving DecidableEq, Repr

/-- The `corev1.ContainerPort`; the file only builds an empty list of them. -/
structure ContainerPort where
  Number : Int
deriving DecidableEq, Repr

/-- The `corev1.ResourceRequirements`, copied verbatim and never inspected:
an uninterpreted payload. -/
structure ResourceRequirements where
  payload : List (String × String) := []
deriving DecidableEq, Repr

/-- The `corev1.Affinity`, copied verbatim and never inspected. -/
structure Affinity where
  payload : String
deriving DecidableEq, Repr

/-- The `corev1.Toleration`, copied verbatim and never inspected. -/
structure Toleration where
  payload : String
deriving DecidableEq, Repr

/-- The `corev1.HostAlias`, copied verbatim and never inspected. -/
structure HostAlias where
  payload : String
deriving DecidableEq, Repr

/-- The `corev1.Container`; a field the file does not set keeps its zero
value. -/
structure Container where
  Name : String := ""
  Image : String := ""
  Command : List String := []
  Args : List String := []
  Ports : List ContainerPort := []
  Env : List EnvVar := []
  Resources : ResourceRequirements := {}
  VolumeMounts : List VolumeMount := []
  LivenessProbe : Option Probe := none
  ReadinessProbe : Option Probe := none
  StartupProbe : Option Probe := none
  Lifecycle : Option Lifecycle := none
  ImagePullPolicy : String := ""
  SecurityContext : Option SecurityContext := none
deriving DecidableEq, Repr

/-- The `corev1.PodSpec`; a field the file does not set keeps its zero
value. -/
structure PodSpec where
  Volumes : List Volume := []
  InitContainers : List Container := []
  Containers : List Container := []
  ServiceAccountName : String := ""
  NodeSelector : List (String × String) := []
  ImagePullSecrets : List LocalObjectReference := []
  Affinity : Option Affinity := none
  Tolerations : List Toleration := []
  HostAliases : List HostAlias := []
deriving DecidableEq, Repr

/-- The `metav1.ObjectMeta`: the name and the labels are what the file sets. -/
structure ObjectMeta where
  Name : String := ""
  Labels : List (String × String) := []
deriving DecidableEq, Repr

/-- The `corev1.PodTemplateSpec`. -/
structure PodTemplateSpec where
  ObjectMeta : ObjectMeta := {}
  Spec : PodSpec := {}
deriving DecidableEq, Repr

/-- The constant `corev1.PullIfNotPresent`. -/
def PullIfNotPresent : String := "IfNotPresent"

/-! ## The cluster specification (`api/doris/v1`) -/

/-- Modelled from the spec: the role tag `v1.ComponentType` is declared in
`api/doris/v1`, outside the file. The file treats it as a string compared
against the four constants `Component_FE`, `Component_BE`, `Component_CN` and
`Component_Broker` in `switch` statements; `other tag` is a tag equal to none
of the four, which takes the `default` branch of every `switch`. -/
inductive ComponentType where
  | Component_FE
  | Component_BE
  | Component_CN
  | Component_Broker
  | other (tag : String)
deriving DecidableEq, Repr

/-- Modelled from the spec: a persistent-volume declaration, a name and a
mount path (`v1.PersistentVolume`, declared outside the file). -/
structure PersistentVolume where
  Name : String
  MountPath : String
deriving DecidableEq, Repr

/-- Modelled from the spec: the configuration-source descriptor, a source name
and a resolve key (`v1.ConfigMapInfo`, declared outside the file). -/
structure ConfigMapInfo where
  ConfigMapName : String := ""
  ResolveKey : String := ""
deriving DecidableEq, Repr

/-- Modelled from the spec: the system-initialization directive
(`v1.SystemInitialization`, declared outside the file). -/
structure SystemInitialization where
  InitImage : String := ""
  Command : List String := []
  Args : List String := []
deriving DecidableEq, Repr

/-- Modelled from the spec: the admin-user descriptor, a name and a password
(`v1.AdminUser`, declared outside the file). -/
structure AdminUser where
  Name : String
  Password : String := ""
deriving DecidableEq, Repr

/-- Modelled from the spec: the per-role configuration `v1.BaseSpec`, declared
outside the file, with the fields the file reads. Its zero value is the
default of every field. -/
structure BaseSpec where
  Image : String := ""
  ImagePullPolicy : String := ""
  ResourceRequirements : ResourceRequirements := {}
  PersistentVolumes : List PersistentVolume := []
  EnvVars : List EnvVar := []
  ConfigMapInfo : ConfigMapInfo := {}
  NodeSelector : List (String × String) := []
  Affinity : Option Affinity := none
  Tolerations : List Toleration := []
  HostAliases : List HostAlias := []
  ImagePullSecrets : List LocalObjectReference := []
  ServiceAccount : String := ""
  SystemInitialization : Option SystemInitialization := none
deriving DecidableEq, Repr

/-- Modelled from the spec: the FE role spec, which embeds a `BaseSpec`. -/
structure FeSpec where
  BaseSpec : BaseSpec := {}
deriving DecidableEq, Repr

/-- Modelled from the spec: the BE role spec, which embeds a `BaseSpec`. -/
structure BeSpec where
  BaseSpec : BaseSpec := {}
deriving DecidableEq, Repr

/-- Modelled from the spec: the CN role spec, which embeds a `BaseSpec`. -/
structure CnSpec where
  BaseSpec : BaseSpec := {}
deriving DecidableEq, Repr

/-- Modelled from the spec: the Broker role spec, which embeds a `BaseSpec`. -/
structure BrokerSpec where
  BaseSpec : BaseSpec := {}
deriving DecidableEq, Repr

/-- Modelled from the spec: the cluster specification holds one role spec per
role and an optional admin user (`v1.DorisClusterSpec`, declared outside the
file). -/
structure DorisClusterSpec where
  FeSpec : FeSpec := {}
  BeSpec : BeSpec := {}
  CnSpec : CnSpec := {}
  BrokerSpec : BrokerSpec := {}
  AdminUser : Option AdminUser := none
deriving DecidableEq, Repr

/-- Modelled from the spec: the cluster object, its name, namespace and
specification (`v1.DorisCluster`, declared outside the file). -/
structure DorisCluster where
  Name : String := ""
  Namespace : String := ""
  Spec : DorisClusterSpec := {}
deriving DecidableEq, Repr

/-- The declarations of the repository that the file uses and that lie outside
it, taken as parameters: the string values of the four role tags, the label
scheme `v1.GetPodLabels`, the port lookup `GetPort` of the resolved
configuration map, and the two keys `HTTP_PORT` and `WEBSERVER_PORT`. -/
structure Externals (Config : Type) where
  feTag : String
  beTag : String
  cnTag : String
  brokerTag : String
  GetPodLabels : DorisCluster → ComponentType → List (String × String)
  GetPort : Config → String → Int
  HTTP_PORT : String
  WEBSERVER_PORT : String

/-- The conversion `string(componentType)`. -/
def ComponentType.string {Config : Type} (x : Externals Config) : ComponentType → String
  | ComponentType.Component_FE => x.feTag
  | ComponentType.Component_BE => x.beTag
  | ComponentType.Component_CN => x.cnTag
  | ComponentType.Component_Broker => x.brokerTag
  | ComponentType.other tag => tag

/-! ## Constants of the file -/

def config_env_path : String := "/etc/doris"
def config_env_name : String := "CONFIGMAP_MOUNT_PATH"
def be_storage_name : String := "be-storage"
def be_storage_path : String := "/opt/apache-doris/be/storage"
def fe_meta_path : String := "/opt/apache-doris/fe/doris-meta"
def fe_meta_name : String := "fe-meta"
def HEALTH_API_PATH : String := "/api/health"
def FE_PRESTOP : String := "/opt/apache-doris/fe_prestop.sh"
def BE_PRESTOP : String := "/opt/apache-doris/be_prestop.sh"
def POD_NAME : String := "POD_NAME"
def POD_IP : String := "POD_IP"
def HOST_IP : String := "HOST_IP"
def POD_NAMESPACE : String := "POD_NAMESPACE"
def ADMIN_USER : String := "USER"
def ADMIN_PASSWD : String := "PASSWD"
def DORIS_ROOT : String := "DORIS_ROOT"
def DEFAULT_ADMIN_USER : String := "root"
def DEFAULT_ROOT_PATH : String := "/opt/apache-doris"

/-! ## The functions of the file -/

/-- The function `newDefaultVolume`: the ephemeral volume of a role that
declares no persistent volume. -/
def newDefaultVolume (componentType : ComponentType) : List Volume :=
  match componentType with
  | ComponentType.Component_FE =>
    [{ Name := fe_meta_name, VolumeSource := { EmptyDir := some {} } }]
  | ComponentType.Component_BE =>
    [{ Name := be_storage_name, VolumeSource := { EmptyDir := some {} } }]
  | _ => []

/-- The function `newVolumesFromBaseSpec`: the loop appends one volume per
persistent-volume declaration. -/
def newVolumesFromBaseSpec (spec : BaseSpec) : List Volume :=
  spec.PersistentVolumes.foldl
    (fun volumes pv =>
      let volume : Volume := {}
      let volume := { volume with Name := pv.Name }
      let volume := { volume with
        VolumeSource := { PersistentVolumeClaim := some { ClaimName := pv.Name } } }
      volumes ++ [volume])
    []

/-- The function `mergeEnvs`. The Go map `m` is an association list: the first
loop records every name of `dst`, the second appends to `dst` the entries of
`src` whose name has no record. -/
def mergeEnvs (src dst : List EnvVar) : List EnvVar :=
  if dst.length = 0 then src
  else if src.length = 0 then dst
  else
    let m : List (String × Bool) := dst.foldl (fun m env => (env.Name, true) :: m) []
    src.foldl (fun dst env => if (m.lookup env.Name).isSome then dst else dst ++ [env]) dst

/-- The function `newBaseInitContainer`. -/
def newBaseInitContainer (name : String) (si : SystemInitialization) : Container :=
  let enablePrivileged := true
  let initImage := si.InitImage
  let initImage := if initImage = "" then "alpine:latest" else initImage
  { Image := initImage
    Name := name
    Command := si.Command
    ImagePullPolicy := PullIfNotPresent
    Args := si.Args
    SecurityContext := some { Privileged := some enablePrivileged } }

/-- The function `buildBaseEnvs`. -/
def buildBaseEnvs (dcr : DorisCluster) : List EnvVar :=
  let defaultEnvs : List EnvVar :=
    [ { Name := POD_NAME, ValueFrom := some { FieldRef := some { FieldPath := "metadata.name" } } },
      { Name := POD_IP, ValueFrom := some { FieldRef := some { FieldPath := "status.podIP" } } },
      { Name := HOST_IP, ValueFrom := some { FieldRef := some { FieldPath := "status.hostIP" } } },
      { Name := POD_NAMESPACE,
        ValueFrom := some { FieldRef := some { FieldPath := "metadata.namespace" } } } ]
  match dcr.Spec.AdminUser with
  | some adminUser =>
    let defaultEnvs := defaultEnvs ++ [{ Name := ADMIN_USER, Value := adminUser.Name }]
    if adminUser.Password ≠ "" then
      defaultEnvs ++ [{ Name := ADMIN_PASSWD, Value := adminUser.Password }]
    else defaultEnvs
  | none =>
    defaultEnvs ++
      [{ Name := ADMIN_USER, Value := DEFAULT_ADMIN_USER },
       { Name := DORIS_ROOT, Value := DEFAULT_ROOT_PATH }]

/-- The function `getFeDefaultVolumesVolumeMounts`. -/
def getFeDefaultVolumesVolumeMounts : List Volume × List VolumeMount :=
  let volumes : List Volume :=
    [{ Name := fe_meta_name, VolumeSource := { EmptyDir := some {} } }]
  let volumMounts : List VolumeMount := [{ Name := fe_meta_name, MountPath := fe_meta_path }]
  (volumes, volumMounts)

/-- The function `getBeDefaultVolumesVolumeMounts`. -/
def getBeDefaultVolumesVolumeMounts : List Volume × List VolumeMount :=
  let volumes : List Volume :=
    [{ Name := be_storage_name, VolumeSource := { EmptyDir := some {} } }]
  let volumeMounts : List VolumeMount :=
    [{ Name := be_storage_name, MountPath := be_storage_path }]
  (volumes, volumeMounts)

/-- The function `getDefaultVolumesVolumeMountsAndPersistentVolumeClaims`. -/
def getDefaultVolumesVolumeMountsAndPersistentVolumeClaims (componentType : ComponentType) :
    List Volume × List VolumeMount :=
  match componentType with
  | ComponentType.Component_FE => getFeDefaultVolumesVolumeMounts
  | ComponentType.Component_BE => getBeDefaultVolumesVolumeMounts
  | _ => ([], [])

/-- The function `buildVolumeMounts`. -/
def buildVolumeMounts (spec : BaseSpec) (componentType : ComponentType) : List VolumeMount :=
  let volumeMounts : List VolumeMount := []
  if spec.PersistentVolumes.length = 0 then
    let volumeMount := (getDefaultVolumesVolumeMountsAndPersistentVolumeClaims componentType).2
    volumeMounts ++ volumeMount
  else
    spec.PersistentVolumes.foldl
      (fun volumeMounts pvs =>
        let volumeMount : VolumeMount := {}
        let volumeMount := { volumeMount with MountPath := pvs.MountPath }
        let volumeMount := { volumeMount with Name := pvs.Name }
        volumeMounts ++ [volumeMount])
      volumeMounts

/-- The function `getImagePullPolicy`. -/
def getImagePullPolicy (spec : BaseSpec) : String :=
  let imagePullPolicy := PullIfNotPresent
  if spec.ImagePullPolicy ≠ "" then spec.ImagePullPolicy else imagePullPolicy

/-- The function `getCommand`: the commands and the arguments of a role. -/
def getCommand (componentType : ComponentType) : List String × List String :=
  match componentType with
  | ComponentType.Component_FE => (["/opt/apache-doris/fe_entrypoint.sh"], ["$(ENV_FE_ADDR)"])
  | ComponentType.Component_BE => (["/opt/apache-doris/be_entrypoint.sh"], ["$(ENV_FE_ADDR)"])
  | ComponentType.Component_CN => (["/opt/apache-doris/be_entrypoint.sh"], ["$(ENV_FE_ADDR)"])
  | _ => ([], [])

/-- The function `generatePodTemplateName`. -/
def generatePodTemplateName {Config : Type} (x : Externals Config) (dcr : DorisCluster)
    (componentType : ComponentType) : String :=
  match componentType with
  | ComponentType.Component_FE =>
    dcr.Name ++ "-" ++ ComponentType.string x ComponentType.Component_FE
  | ComponentType.Component_BE =>
    dcr.Name ++ "-" ++ ComponentType.string x ComponentType.Component_BE
  | ComponentType.Component_CN =>
    dcr.Name ++ "-" ++ ComponentType.string x ComponentType.Component_CN
  | ComponentType.Component_Broker =>
    dcr.Name ++ "-" ++ ComponentType.string x ComponentType.Component_Broker
  | _ => ""

/-- The function `getBaseSpecFromCluster`: a pointer to the role's `BaseSpec`,
and the nil pointer (`none`) for a tag outside the four roles. -/
def getBaseSpecFromCluster (dcr : DorisCluster) (componentType : ComponentType) :
    Option BaseSpec :=
  match componentType with
  | ComponentType.Component_FE => some dcr.Spec.FeSpec.BaseSpec
  | ComponentType.Component_BE => some dcr.Spec.BeSpec.BaseSpec
  | ComponentType.Component_CN => some dcr.Spec.CnSpec.BaseSpec
  | ComponentType.Component_Broker => some dcr.Spec.BrokerSpec.BaseSpec
  | _ => none

/-- The function `getConfigVolumeAndVolumeMount`. -/
def getConfigVolumeAndVolumeMount (cmInfo : ConfigMapInfo) (componentType : ComponentType) :
    Volume × VolumeMount :=
  let volume : Volume := {}
  let volumeMount : VolumeMount := {}
  if cmInfo.ConfigMapName ≠ "" ∧ cmInfo.ResolveKey ≠ "" then
    let volume : Volume :=
      { Name := cmInfo.ConfigMapName
        VolumeSource :=
          { ConfigMap := some { LocalObjectReference := { Name := cmInfo.ConfigMapName } } } }
    let volumeMount : VolumeMount := { Name := cmInfo.ConfigMapName }
    let volumeMount :=
      match componentType with
      | ComponentType.Component_FE => { volumeMount with MountPath := config_env_path }
      | ComponentType.Component_BE => { volumeMount with MountPath := config_env_path }
      | ComponentType.Component_CN => { volumeMount with MountPath := config_env_path }
      | _ => volumeMount
    (volume, volumeMount)
  else (volume, volumeMount)

/-- The function `getProbe`. -/
def getProbe (port : Int) (path : String) : ProbeHandler :=
  { HTTPGet := some { Path := path, Port := { Type_ := IntstrType.Int, IntVal := port } } }

/-- The function `startupProbe`. -/
def startupProbe (port : Int) (path : String) : Probe :=
  { FailureThreshold := 60, PeriodSeconds := 5, ProbeHandler := getProbe port path }

/-- The function `livenessProbe`. -/
def livenessProbe (port : Int) (path : String) : Probe :=
  { PeriodSeconds := 5, FailureThreshold := 3, ProbeHandler := getProbe port path }

/-- The function `readinessProbe`. -/
def readinessProbe (port : Int) (path : String) : Probe :=
  { PeriodSeconds := 5, FailureThreshold := 3, ProbeHandler := getProbe port path }

/-- The function `lifeCycle`. -/
def lifeCycle (preStopScriptPath : String) : Lifecycle :=
  { PreStop := some { Exec := some { Command := [preStopScriptPath] } } }

/-- The function `NewPodTemplateSpec`. The pointer `spec` of
`getBaseSpecFromCluster` is first dereferenced by the test of
`spec.ConfigMapInfo`, after the role `switch` and the default volumes; when it
is nil the function panics there (`none`). The composite literal sets neither
`InitContainers` nor `Containers`. -/
def NewPodTemplateSpec {Config : Type} (x : Externals Config) (dcr : DorisCluster)
    (componentType : ComponentType) : Option PodTemplateSpec :=
  let spec := getBaseSpecFromCluster dcr componentType
  let volumes : List Volume := []
  let si : Option SystemInitialization := none
  let (volumes, si) :=
    match componentType with
    | ComponentType.Component_FE =>
      (newVolumesFromBaseSpec dcr.Spec.FeSpec.BaseSpec,
        dcr.Spec.FeSpec.BaseSpec.SystemInitialization)
    | ComponentType.Component_BE =>
      (newVolumesFromBaseSpec dcr.Spec.BeSpec.BaseSpec,
        dcr.Spec.BeSpec.BaseSpec.SystemInitialization)
    | ComponentType.Component_CN => (volumes, dcr.Spec.CnSpec.BaseSpec.SystemInitialization)
    | _ => (volumes, si)
  let volumes := if volumes.length = 0 then newDefaultVolume componentType else volumes
  match spec with
  | none => none
  | some spec =>
    let volumes :=
      if spec.ConfigMapInfo.ConfigMapName ≠ "" ∧ spec.ConfigMapInfo.ResolveKey ≠ "" then
        let configVolume := (getConfigVolumeAndVolumeMount spec.ConfigMapInfo componentType).1
        volumes ++ [configVolume]
      else volumes
    let pts : PodTemplateSpec :=
      { ObjectMeta :=
          { Name := generatePodTemplateName x dcr componentType
            Labels := x.GetPodLabels dcr componentType }
        Spec :=
          { ImagePullSecrets := spec.ImagePullSecrets
            NodeSelector := spec.NodeSelector
            Volumes := volumes
            ServiceAccountName := spec.ServiceAccount
            Affinity := spec.Affinity
            Tolerations := spec.Tolerations
            HostAliases := spec.HostAliases } }
    match si with
    | some si =>
      let initContainer := newBaseInitContainer "init" si
      some { pts with
        Spec := { pts.Spec with InitContainers := pts.Spec.InitContainers ++ [initContainer] } }
    | none => some pts

/-- The function `NewBaseMainContainer`. Here `spec` is a `BaseSpec` value,
which stays the zero value for a tag outside the four roles. -/
def NewBaseMainContainer {Config : Type} (x : Externals Config) (dcr : DorisCluster)
    (config : Config) (componentType : ComponentType) : Container :=
  let (command, args) := getCommand componentType
  let spec : BaseSpec :=
    match componentType with
    | ComponentType.Component_FE => dcr.Spec.FeSpec.BaseSpec
    | ComponentType.Component_BE => dcr.Spec.BeSpec.BaseSpec
    | ComponentType.Component_CN => dcr.Spec.CnSpec.BaseSpec
    | ComponentType.Component_Broker => dcr.Spec.BrokerSpec.BaseSpec
    | _ => {}
  let volumeMounts := buildVolumeMounts spec componentType
  let envs : List EnvVar := []
  let envs := envs ++ buildBaseEnvs dcr
  let envs := mergeEnvs envs spec.EnvVars
  let (envs, volumeMounts) :=
    if spec.ConfigMapInfo.ConfigMapName ≠ "" ∧ spec.ConfigMapInfo.ResolveKey ≠ "" then
      let envs := envs ++ [{ Name := config_env_name, Value := config_env_path }]
      let volumeMount := (getConfigVolumeAndVolumeMount spec.ConfigMapInfo componentType).2
      (envs, volumeMounts ++ [volumeMount])
    else (envs, volumeMounts)
  let c : Container :=
    { Image := spec.Image
      Name := ComponentType.string x componentType
      Command := command
      Args := args
      Ports := []
      Env := envs
      VolumeMounts := volumeMounts
      ImagePullPolicy := getImagePullPolicy spec
      Resources := spec.ResourceRequirements }
  let healthPort : Int := 0
  let prestopScript : String := ""
  let (healthPort, prestopScript) :=
    match componentType with
    | ComponentType.Component_FE => (x.GetPort config x.HTTP_PORT, FE_PRESTOP)
    | ComponentType.Component_BE => (x.GetPort config x.WEBSERVER_PORT, BE_PRESTOP)
    | ComponentType.Component_CN => (x.GetPort config x.WEBSERVER_PORT, BE_PRESTOP)
    | _ => (healthPort, prestopScript)
  if healthPort ≠ 0 then
    { c with
      LivenessProbe := some (livenessProbe healthPort HEALTH_API_PATH)
      StartupProbe := some (startupProbe healthPort HEALTH_API_PATH)
      ReadinessProbe := some (readinessProbe healthPort HEALTH_API_PATH)
      Lifecycle := some (lifeCycle prestopScript) }
  else c

/-! ## Auxiliary definitions for the statements -/

/-- The cluster `dcr` with the configuration-source descriptor of the role
`componentType` replaced by `cm`, every other field unchanged. -/
def setConfigMapInfo (dcr : DorisCluster) (componentType : ComponentType) (cm : ConfigMapInfo) :
    DorisCluster :=
  match componentType with
  | ComponentType.Component_FE =>
    { dcr with Spec := { dcr.Spec with
        FeSpec := { BaseSpec := { dcr.Spec.FeSpec.BaseSpec with ConfigMapInfo := cm } } } }
  | ComponentType.Component_BE =>
    { dcr with Spec := { dcr.Spec with
        BeSpec := { BaseSpec := { dcr.Spec.BeSpec.BaseSpec with ConfigMapInfo := cm } } } }
  | ComponentType.Component_CN =>
    { dcr with Spec := { dcr.Spec with
        CnSpec := { BaseSpec := { dcr.Spec.CnSpec.BaseSpec with ConfigMapInfo := cm } } } }
  | ComponentType.Component_Broker =>
    { dcr with Spec := { dcr.Spec with
        BrokerSpec := { BaseSpec := { dcr.Spec.BrokerSpec.BaseSpec with ConfigMapInfo := cm } } } }
  | _ => dcr

/-- A sample instance of the external declarations, used to evaluate the
functions on concrete inputs: the resolved configuration is a list of keys
with their ports, and a key that is absent resolves to port 0. -/
def sampleExternals : Externals (List (String × Int)) where
  feTag := "fe"
  beTag := "be"
  cnTag := "cn"
  brokerTag := "broker"
  GetPodLabels := fun dcr componentType =>
    [("cluster", dcr.Name), ("component", match componentType with
      | ComponentType.Component_FE => "fe"
      | ComponentType.Component_BE => "be"
      | ComponentType.Component_CN => "cn"
      | ComponentType.Component_Broker => "broker"
      | ComponentType.other tag => tag)]
  GetPort := fun config key => (config.lookup key).getD 0
  HTTP_PORT := "http_port"
  WEBSERVER_PORT := "webserver_port"

/-- A sample cluster: FE declares two persistent volumes and a complete
configuration source, BE declares one override and half a configuration
source, CN declares one persistent volume, and Broker carries a
system-initialization directive. -/
def sampleCluster : DorisCluster where
  Name := "doris"
  Namespace := "default"
  Spec :=
    { FeSpec := { BaseSpec :=
        { Image := "fe:1"
          PersistentVolumes :=
            [{ Name := "meta", MountPath := "/data/meta" }, { Name := "log", MountPath := "/data/log" }]
          ConfigMapInfo := { ConfigMapName := "fe-conf", ResolveKey := "fe.conf" }
          SystemInitialization := some { Command := ["sysctl"], Args := ["-w"] } } }
      BeSpec := { BaseSpec :=
        { Image := "be:1"
          EnvVars := [{ Name := "USER", Value := "bob" }]
          ConfigMapInfo := { ConfigMapName := "be-conf", ResolveKey := "" } } }
      CnSpec := { BaseSpec :=
        { Image := "cn:1"
          PersistentVolumes := [{ Name := "cache", MountPath := "/data/cache" }] } }
      BrokerSpec := { BaseSpec :=
        { Image := "broker:1"
          SystemInitialization := some { InitImage := "busybox", Command := ["true"] } } }
      AdminUser := none }

/-- A sample cluster that declares the admin user `alice` with the password
`s3cret`; its role specs are empty. -/
def sampleAdminCluster : DorisCluster where
  Name := "doris"
  Namespace := "default"
  Spec := { AdminUser := some { Name := "alice", Password := "s3cret" } }

/-- A sample cluster that declares the admin user `alice` with no password;
its role specs are empty. -/
def sampleNoPasswordCluster : DorisCluster where
  Name := "doris"
  Namespace := "default"
  Spec := { AdminUser := some { Name := "alice", Password := "" } }

/-- A sample cluster with configuration injection active for FE, BE and
Broker: FE declares an override named `CONFIGMAP_MOUNT_PATH`, BE declares the
override `TZ` and a custom pull policy, and Broker declares nothing else. -/
def sampleInjectionCluster : DorisCluster where
  Name := "doris"
  Namespace := "default"
  Spec :=
    { FeSpec := { BaseSpec :=
        { Image := "fe:1"
          EnvVars := [{ Name := "CONFIGMAP_MOUNT_PATH", Value := "/custom" }]
          ConfigMapInfo := { ConfigMapName := "fe-conf", ResolveKey := "fe.conf" } } }
      BeSpec := { BaseSpec :=
        { Image := "be:1"
          ImagePullPolicy := "Always"
          EnvVars := [{ Name := "TZ", Value := "UTC" }]
          ConfigMapInfo := { ConfigMapName := "be-conf", ResolveKey := "be.conf" } } }
      BrokerSpec := { BaseSpec :=
        { Image := "broker:1"
          ConfigMapInfo := { ConfigMapName := "broker-conf", ResolveKey := "broker.conf" } } } }

/-! ## Lemmas on the loops -/

/-- A loop that appends one image per element computes a `map`. -/
theorem foldl_append_map {α β : Type} (f : α → β) (l : List α) (init : List β) :
    l.foldl (fun acc a => acc ++ [f a]) init = init ++ l.map f := by
  induction l generalizing init with
  | nil => simp
  | cons a l ih => simp [ih]

/-- A loop that skips the elements satisfying `p` and appends the others
computes a `filter`. -/
theorem foldl_skip_filter {α : Type} (p : α → Bool) (l : List α) (init : List α) :
    l.foldl (fun acc a => if p a then acc else acc ++ [a]) init
      = init ++ l.filter (fun a => !p a) := by
  induction l generalizing init with
  | nil => simp
  | cons a l ih =>
    cases hp : p a <;> simp [ih, hp]

/-- The volumes of `newVolumesFromBaseSpec`, one per declaration, in order. -/
theorem newVolumesFromBaseSpec_eq (spec : BaseSpec) :
    newVolumesFromBaseSpec spec
      = spec.PersistentVolumes.map (fun pv =>
          ({ Name := pv.Name,
             VolumeSource := { PersistentVolumeClaim := some { ClaimName := pv.Name } } } :
            Volume)) := by
  unfold newVolumesFromBaseSpec
  simpa using foldl_append_map
    (fun pv : PersistentVolume =>
      ({ Name := pv.Name,
         VolumeSource := { PersistentVolumeClaim := some { ClaimName := pv.Name } } } : Volume))
    spec.PersistentVolumes []

/-- The mounts of `buildVolumeMounts` when volumes are declared. -/
theorem buildVolumeMounts_declared (spec : BaseSpec) (componentType : ComponentType)
    (h : spec.PersistentVolumes ≠ []) :
    buildVolumeMounts spec componentType
      = spec.PersistentVolumes.map (fun pv =>
          ({ Name := pv.Name, MountPath := pv.MountPath } : VolumeMount)) := by
  unfold buildVolumeMounts
  have hlen : spec.PersistentVolumes.length ≠ 0 := by
    simpa [List.length_eq_zero] using h
  simp only [hlen, if_false]
  simpa using foldl_append_map
    (fun pv : PersistentVolume => ({ Name := pv.Name, MountPath := pv.MountPath } : VolumeMount))
    spec.PersistentVolumes []

/-- The map built by the first loop of `mergeEnvs` has a record for exactly
the names of `dst` (and those already recorded). -/
theorem lookup_recorded_names (dst : List EnvVar) (init : List (String × Bool)) (n : String) :
    ((dst.foldl (fun m env => (env.Name, true) :: m) init).lookup n).isSome
      = (decide (n ∈ dst.map EnvVar.Name) || (init.lookup n).isSome) := by
  induction dst generalizing init with
  | nil => simp
  | cons d dst ih =>
    simp only [List.foldl_cons, ih, List.map_cons, List.mem_cons, List.lookup_cons]
    by_cases hn : n = d.Name
    · subst hn
      simp
    · have hbeq : (n == d.Name) = false := by simpa using hn
      simp [hbeq, hn]

/-- The result of `mergeEnvs` on two non-empty lists: `dst`, then the entries
of `src` whose name is not a name of `dst`, in the order of `src`. -/
theorem mergeEnvs_nonempty (src dst : List EnvVar) (hs : src ≠ []) (hd : dst ≠ []) :
    mergeEnvs src dst
      = dst ++ src.filter (fun e => decide (e.Name ∉ dst.map EnvVar.Name)) := by
  unfold mergeEnvs
  have hdl : dst.length ≠ 0 := by simpa [List.length_eq_zero] using hd
  have hsl : src.length ≠ 0 := by simpa [List.length_eq_zero] using hs
  simp only [hdl, hsl, if_false]
  rw [foldl_skip_filter]
  congr 1
  apply List.filter_congr
  intro e _
  rw [lookup_recorded_names, Bool.eq_iff_iff]
  simp

/-! ## The pod template and an unsupported role tag -/

/-- C1 (the code departs from the claim). For every cluster and every role tag
outside FE, BE, CN and Broker, `getBaseSpecFromCluster` returns the nil pointer
and `NewPodTemplateSpec` does not return a pod template: it stops in the
nil-pointer dereference of `spec.ConfigMapInfo`. -/
theorem NewPodTemplateSpec_unsupported_tag_panics {Config : Type} (x : Externals Config)
    (dcr : DorisCluster) (tag : String) :
    getBaseSpecFromCluster dcr (ComponentType.other tag) = none ∧
      NewPodTemplateSpec x dcr (ComponentType.other tag) = none := by
  constructor <;> rfl

/-! ## Persistent volumes and their mounts -/

/-- C2, the claim as stated fails: the sample cluster declares one persistent
volume for CN with configuration injection inactive, and the template of
`NewPodTemplateSpec` for CN has no volume at all, while the container has the
one mount. -/
theorem persistent_volumes_CN_counterexample :
    getBaseSpecFromCluster sampleCluster ComponentType.Component_CN
        = some sampleCluster.Spec.CnSpec.BaseSpec ∧
      sampleCluster.Spec.CnSpec.BaseSpec.PersistentVolumes.length = 1 ∧
      sampleCluster.Spec.CnSpec.BaseSpec.ConfigMapInfo.ConfigMapName = "" ∧
      (NewPodTemplateSpec sampleExternals sampleCluster ComponentType.Component_CN).map
          (fun pts => pts.Spec.Volumes) = some [] ∧
      (NewPodTemplateSpec sampleExternals sampleCluster ComponentType.Component_CN).map
          (fun pts => pts.Spec.Volumes.length) ≠ some 1 ∧
      (NewBaseMainContainer sampleExternals sampleCluster [] ComponentType.Component_CN).VolumeMounts
        = [{ Name := "cache", MountPath := "/data/cache" }] := by
  decide

/-- C2, amended. For every cluster and every role in FE, BE, CN, Broker whose
spec declares N ≥ 1 persistent volumes with configuration injection inactive:
the mount list of `NewBaseMainContainer` has exactly N mounts, the i-th with
the i-th declaration's name and mount path; and when the role is FE or BE the
volume list of `NewPodTemplateSpec` has exactly N volumes, the i-th named after
and backed by a persistent-volume claim of the i-th declaration's name. -/
theorem persistent_volumes_in_declaration_order {Config : Type} (x : Externals Config)
    (dcr : DorisCluster) (config : Config) (componentType : ComponentType) (spec : BaseSpec)
    (hrole : getBaseSpecFromCluster dcr componentType = some spec)
    (hN : 1 ≤ spec.PersistentVolumes.length)
    (hcfg : spec.ConfigMapInfo.ConfigMapName = "" ∨ spec.ConfigMapInfo.ResolveKey = "") :
    ((NewBaseMainContainer x dcr config componentType).VolumeMounts
        = spec.PersistentVolumes.map (fun pv =>
            ({ Name := pv.Name, MountPath := pv.MountPath } : VolumeMount)) ∧
      (NewBaseMainContainer x dcr config componentType).VolumeMounts.length
        = spec.PersistentVolumes.length) ∧
    (componentType = ComponentType.Component_FE ∨ componentType = ComponentType.Component_BE →
      ∃ pts, NewPodTemplateSpec x dcr componentType = some pts ∧
        pts.Spec.Volumes
          = spec.PersistentVolumes.map (fun pv =>
              ({ Name := pv.Name,
                 VolumeSource := { PersistentVolumeClaim := some { ClaimName := pv.Name } } } :
                Volume)) ∧
        pts.Spec.Volumes.length = spec.PersistentVolumes.length) := by
  have hne : spec.PersistentVolumes ≠ [] := by
    intro h
    rw [h] at hN
    simp at hN
  have hinactive : ¬ (spec.ConfigMapInfo.ConfigMapName ≠ "" ∧ spec.ConfigMapInfo.ResolveKey ≠ "") := by
    rintro ⟨h1, h2⟩
    rcases hcfg with h | h
    · exact h1 h
    · exact h2 h
  have hmounts := buildVolumeMounts_declared spec componentType hne
  have hvols := newVolumesFromBaseSpec_eq spec
  have hvlen : (newVolumesFromBaseSpec spec).length ≠ 0 := by
    rw [hvols, List.length_map]
    omega
  constructor
  · cases componentType <;>
      simp only [getBaseSpecFromCluster, Option.some.injEq, reduceCtorEq] at hrole <;>
      subst hrole <;>
      · unfold NewBaseMainContainer
        simp only [hinactive, if_false]
        split <;> simp [hmounts]
  · intro hct
    rcases hct with h | h <;> subst h <;>
      simp only [getBaseSpecFromCluster, Option.some.injEq] at hrole <;>
      subst hrole <;>
      · unfold NewPodTemplateSpec
        simp only [getBaseSpecFromCluster, hvlen, hinactive, if_false]
        split <;> simp [hvols]

/-- C2, amended, on the sample cluster: FE declares two persistent volumes; the
configuration source is cleared to make injection inactive. -/
theorem persistent_volumes_in_declaration_order_witness :
    (NewBaseMainContainer sampleExternals
        (setConfigMapInfo sampleCluster ComponentType.Component_FE {}) []
        ComponentType.Component_FE).VolumeMounts.length = 2 ∧
      ∃ pts, NewPodTemplateSpec sampleExternals
          (setConfigMapInfo sampleCluster ComponentType.Component_FE {})
          ComponentType.Component_FE = some pts ∧
        pts.Spec.Volumes.length = 2 := by
  have h := persistent_volumes_in_declaration_order sampleExternals
    (setConfigMapInfo sampleCluster ComponentType.Component_FE {}) []
    ComponentType.Component_FE
    (setConfigMapInfo sampleCluster ComponentType.Component_FE {}).Spec.FeSpec.BaseSpec
    rfl (by decide) (Or.inl rfl)
  obtain ⟨⟨_, hlen⟩, hvol⟩ := h
  obtain ⟨pts, hpts, _, hvlen⟩ := hvol (Or.inl rfl)
  exact ⟨hlen, pts, hpts, hvlen⟩

/-! ## The merge of the environment -/

/-- C3, the claim as stated fails: with the override list declaring the name
`A` twice, the merged environment holds two entries named `A`, not one. -/
theorem mergeEnvs_duplicate_override_counterexample :
    "A" ∈ ([{ Name := "A", Value := "base" }] : List EnvVar).map EnvVar.Name ∧
      "A" ∈ ([{ Name := "A", Value := "one" }, { Name := "A", Value := "two" }] :
        List EnvVar).map EnvVar.Name ∧
      mergeEnvs [{ Name := "A", Value := "base" }]
          [{ Name := "A", Value := "one" }, { Name := "A", Value := "two" }]
        = [{ Name := "A", Value := "one" }, { Name := "A", Value := "two" }] ∧
      ((mergeEnvs [{ Name := "A", Value := "base" }]
          [{ Name := "A", Value := "one" }, { Name := "A", Value := "two" }]).filter
        (fun e => decide (e.Name = "A"))).length ≠ 1 := by
  decide

/-- C3, amended. For every baseline list `src`, every override list `dst` and
every name `n` that occurs in `src` and is declared exactly once in `dst`, by
the entry `d`: the entries named `n` of `mergeEnvs src dst` are exactly the one
entry `d`, so the name occurs once and carries the override's value. -/
theorem mergeEnvs_override_wins_once (src dst : List EnvVar) (n : String) (d : EnvVar)
    (hsrc : n ∈ src.map EnvVar.Name)
    (hdst : dst.filter (fun e => decide (e.Name = n)) = [d]) :
    (mergeEnvs src dst).filter (fun e => decide (e.Name = n)) = [d] ∧ d ∈ dst ∧ d.Name = n := by
  have hs : src ≠ [] := by
    intro h
    simp [h] at hsrc
  have hd : dst ≠ [] := by
    intro h
    simp [h] at hdst
  have hmem : d ∈ dst.filter (fun e => decide (e.Name = n)) := by simp [hdst]
  have hd2 : d ∈ dst ∧ d.Name = n := by simpa [List.mem_filter] using hmem
  refine ⟨?_, hd2.1, hd2.2⟩
  rw [mergeEnvs_nonempty src dst hs hd, List.filter_append, hdst]
  have htail : (src.filter (fun e => decide (e.Name ∉ dst.map EnvVar.Name))).filter
      (fun e => decide (e.Name = n)) = [] := by
    rw [List.filter_eq_nil_iff]
    intro e he
    have he2 := (List.mem_filter.mp he).2
    simp only [decide_eq_true_eq] at he2 ⊢
    intro hen
    apply he2
    rw [hen, List.mem_map]
    exact ⟨d, hd2.1, hd2.2⟩
  rw [htail]
  rfl

/-- C3, amended, on a concrete pair of lists. -/
theorem mergeEnvs_override_wins_once_witness :
    (mergeEnvs [{ Name := "A", Value := "base" }, { Name := "B", Value := "base" }]
        [{ Name := "A", Value := "over" }]).filter (fun e => decide (e.Name = "A"))
      = [{ Name := "A", Value := "over" }] :=
  (mergeEnvs_override_wins_once
    [{ Name := "A", Value := "base" }, { Name := "B", Value := "base" }]
    [{ Name := "A", Value := "over" }] "A" { Name := "A", Value := "over" }
    (by decide) (by decide)).1

/-- C4. For all lists `src` and `dst`: `mergeEnvs src dst` is `src` when `dst`
is empty, `dst` when `src` is empty, and otherwise `dst` followed by exactly
the entries of `src` whose name does not occur in `dst`, in their order in
`src`; in every case no entry of `src` whose name occurs in `dst` is among the
entries that follow `dst` in the result. -/
theorem mergeEnvs_characterisation (src dst : List EnvVar) :
    (dst = [] → mergeEnvs src dst = src) ∧
      (src = [] → mergeEnvs src dst = dst) ∧
      (src ≠ [] → dst ≠ [] →
        mergeEnvs src dst
          = dst ++ src.filter (fun e => decide (e.Name ∉ dst.map EnvVar.Name))) ∧
      (∀ e ∈ src, e.Name ∈ dst.map EnvVar.Name → e ∉ (mergeEnvs src dst).drop dst.length) := by
  have h1 : dst = [] → mergeEnvs src dst = src := by
    intro h
    simp [mergeEnvs, h]
  have h2 : src = [] → mergeEnvs src dst = dst := by
    intro h
    subst h
    cases dst <;> simp [mergeEnvs]
  refine ⟨h1, h2, mergeEnvs_nonempty src dst, ?_⟩
  intro e _ hname hmem
  by_cases hd : dst = []
  · subst hd
    simp at hname
  · by_cases hs : src = []
    · rw [h2 hs] at hmem
      simp at hmem
    · rw [mergeEnvs_nonempty src dst hs hd, List.drop_left] at hmem
      have := (List.mem_filter.mp hmem).2
      simp only [decide_eq_true_eq] at this
      exact this hname

/-- C4 on concrete lists: the baseline `A` is dropped, the baseline `B` is
appended after the override. -/
theorem mergeEnvs_characterisation_witness :
    mergeEnvs [{ Name := "A", Value := "base" }, { Name := "B", Value := "base" }]
        [{ Name := "A", Value := "over" }]
      = [{ Name := "A", Value := "over" }, { Name := "B", Value := "base" }] := by
  have h := (mergeEnvs_characterisation
    [{ Name := "A", Value := "base" }, { Name := "B", Value := "base" }]
    [{ Name := "A", Value := "over" }]).2.2.1 (by decide) (by decide)
  rw [h]
  decide

/-! ## Configuration injection -/

/-- The volumes that `NewPodTemplateSpec` holds before the configuration
volume is appended are never backed by a configuration source. -/
theorem newVolumesFromBaseSpec_no_ConfigMap (spec : BaseSpec) :
    ∀ v ∈ newVolumesFromBaseSpec spec, v.VolumeSource.ConfigMap = none := by
  rw [newVolumesFromBaseSpec_eq]
  intro v hv
  obtain ⟨pv, _, rfl⟩ := List.mem_map.mp hv
  rfl

/-- The default volumes are never backed by a configuration source. -/
theorem newDefaultVolume_no_ConfigMap (componentType : ComponentType) :
    ∀ v ∈ newDefaultVolume componentType, v.VolumeSource.ConfigMap = none := by
  intro v hv
  cases componentType <;> simp [newDefaultVolume] at hv <;> subst hv <;> rfl

/-- The environment and the mounts of the main container, for a role in FE,
BE, CN, Broker: the merged environment and the mounts of `buildVolumeMounts`,
each followed by the configuration entry when injection is active. -/
theorem NewBaseMainContainer_Env_VolumeMounts {Config : Type} (x : Externals Config)
    (dcr : DorisCluster) (config : Config) (componentType : ComponentType) (spec : BaseSpec)
    (hrole : getBaseSpecFromCluster dcr componentType = some spec) :
    (NewBaseMainContainer x dcr config componentType).Env
        = (if spec.ConfigMapInfo.ConfigMapName ≠ "" ∧ spec.ConfigMapInfo.ResolveKey ≠ "" then
            mergeEnvs (buildBaseEnvs dcr) spec.EnvVars
              ++ [{ Name := config_env_name, Value := config_env_path }]
          else mergeEnvs (buildBaseEnvs dcr) spec.EnvVars) ∧
      (NewBaseMainContainer x dcr config componentType).VolumeMounts
        = (if spec.ConfigMapInfo.ConfigMapName ≠ "" ∧ spec.ConfigMapInfo.ResolveKey ≠ "" then
            buildVolumeMounts spec componentType
              ++ [(getConfigVolumeAndVolumeMount spec.ConfigMapInfo componentType).2]
          else buildVolumeMounts spec componentType) := by
  by_cases hact : spec.ConfigMapInfo.ConfigMapName ≠ "" ∧ spec.ConfigMapInfo.ResolveKey ≠ ""
  · cases componentType <;>
      simp only [getBaseSpecFromCluster, Option.some.injEq, reduceCtorEq] at hrole <;>
      subst hrole <;>
      · unfold NewBaseMainContainer
        simp only [hact, if_true]
        constructor <;> split <;> simp
  · cases componentType <;>
      simp only [getBaseSpecFromCluster, Option.some.injEq, reduceCtorEq] at hrole <;>
      subst hrole <;>
      · unfold NewBaseMainContainer
        simp only [hact, if_false]
        constructor <;> split <;> simp

/-- With configuration injection inactive, the environment of the main
container is the merged environment and its mounts are those of
`buildVolumeMounts`. -/
theorem NewBaseMainContainer_without_injection {Config : Type} (x : Externals Config)
    (dcr : DorisCluster) (config : Config) (componentType : ComponentType) (spec : BaseSpec)
    (hrole : getBaseSpecFromCluster dcr componentType = some spec)
    (hinactive :
      ¬ (spec.ConfigMapInfo.ConfigMapName ≠ "" ∧ spec.ConfigMapInfo.ResolveKey ≠ "")) :
    (NewBaseMainContainer x dcr config componentType).VolumeMounts
        = buildVolumeMounts spec componentType ∧
      (NewBaseMainContainer x dcr config componentType).Env
        = mergeEnvs (buildBaseEnvs dcr) spec.EnvVars := by
  cases componentType <;>
    simp only [getBaseSpecFromCluster, Option.some.injEq, reduceCtorEq] at hrole <;>
    subst hrole <;>
    · unfold NewBaseMainContainer
      simp only [hinactive, if_false]
      constructor <;> split <;> simp

/-- With configuration injection inactive, `NewPodTemplateSpec` returns a
template none of whose volumes is backed by a configuration source. -/
theorem NewPodTemplateSpec_without_injection {Config : Type} (x : Externals Config)
    (dcr : DorisCluster) (componentType : ComponentType) (spec : BaseSpec)
    (hrole : getBaseSpecFromCluster dcr componentType = some spec)
    (hinactive :
      ¬ (spec.ConfigMapInfo.ConfigMapName ≠ "" ∧ spec.ConfigMapInfo.ResolveKey ≠ "")) :
    ∃ pts, NewPodTemplateSpec x dcr componentType = some pts ∧
      ∀ v ∈ pts.Spec.Volumes, v.VolumeSource.ConfigMap = none := by
  cases componentType <;>
    simp only [getBaseSpecFromCluster, Option.some.injEq, reduceCtorEq] at hrole <;>
    subst hrole <;>
    · unfold NewPodTemplateSpec
      simp only [getBaseSpecFromCluster, hinactive, if_false]
      split <;> refine ⟨_, rfl, ?_⟩ <;> dsimp only <;> (try split) <;>
        first
        | exact newVolumesFromBaseSpec_no_ConfigMap _
        | exact newDefaultVolume_no_ConfigMap _
        | simp [newDefaultVolume]

/-- C5. For every cluster and every role in FE, BE, CN, Broker whose
configuration source name is empty or whose resolve key is empty:
`NewPodTemplateSpec` and `NewBaseMainContainer` return exactly what they return
for the same cluster with both fields empty (the external label scheme giving
the two clusters the same labels); no volume of the template is backed by a
configuration source, the mounts are those of `buildVolumeMounts` alone, and
the environment is the merged environment alone, with no
`CONFIGMAP_MOUNT_PATH` entry appended. -/
theorem config_injection_all_or_nothing {Config : Type} (x : Externals Config)
    (dcr : DorisCluster) (config : Config) (componentType : ComponentType) (spec : BaseSpec)
    (hrole : getBaseSpecFromCluster dcr componentType = some spec)
    (hcfg : spec.ConfigMapInfo.ConfigMapName = "" ∨ spec.ConfigMapInfo.ResolveKey = "")
    (hlabels : x.GetPodLabels dcr componentType
      = x.GetPodLabels (setConfigMapInfo dcr componentType {}) componentType) :
    NewPodTemplateSpec x dcr componentType
        = NewPodTemplateSpec x (setConfigMapInfo dcr componentType {}) componentType ∧
      NewBaseMainContainer x dcr config componentType
        = NewBaseMainContainer x (setConfigMapInfo dcr componentType {}) config componentType ∧
      (∃ pts, NewPodTemplateSpec x dcr componentType = some pts ∧
        ∀ v ∈ pts.Spec.Volumes, v.VolumeSource.ConfigMap = none) ∧
      (NewBaseMainContainer x dcr config componentType).VolumeMounts
        = buildVolumeMounts spec componentType ∧
      (NewBaseMainContainer x dcr config componentType).Env
        = mergeEnvs (buildBaseEnvs dcr) spec.EnvVars := by
  have hinactive : ¬ (spec.ConfigMapInfo.ConfigMapName ≠ "" ∧ spec.ConfigMapInfo.ResolveKey ≠ "") := by
    rintro ⟨h1, h2⟩
    rcases hcfg with h | h
    · exact h1 h
    · exact h2 h
  refine ⟨?_, ?_, NewPodTemplateSpec_without_injection x dcr componentType spec hrole hinactive,
    NewBaseMainContainer_without_injection x dcr config componentType spec hrole hinactive⟩
  · cases componentType <;>
      simp only [getBaseSpecFromCluster, Option.some.injEq, reduceCtorEq] at hrole <;>
      subst hrole <;>
      · simp only [setConfigMapInfo] at hlabels
        simp [NewPodTemplateSpec, getBaseSpecFromCluster, setConfigMapInfo, hinactive,
          newVolumesFromBaseSpec, generatePodTemplateName, hlabels]
  · cases componentType <;>
      simp only [getBaseSpecFromCluster, Option.some.injEq, reduceCtorEq] at hrole <;>
      subst hrole <;>
      · unfold NewBaseMainContainer
        simp only [setConfigMapInfo, hinactive, if_false]
        simp [buildBaseEnvs, buildVolumeMounts, getImagePullPolicy]

/-- C5 on the sample cluster: BE names a configuration source and leaves the
resolve key empty. -/
theorem config_injection_all_or_nothing_witness :
    NewPodTemplateSpec sampleExternals sampleCluster ComponentType.Component_BE
        = NewPodTemplateSpec sampleExternals
            (setConfigMapInfo sampleCluster ComponentType.Component_BE {})
            ComponentType.Component_BE ∧
      (NewBaseMainContainer sampleExternals sampleCluster [] ComponentType.Component_BE).VolumeMounts
        = buildVolumeMounts sampleCluster.Spec.BeSpec.BaseSpec ComponentType.Component_BE := by
  have h := config_injection_all_or_nothing sampleExternals sampleCluster []
    ComponentType.Component_BE sampleCluster.Spec.BeSpec.BaseSpec rfl (Or.inr rfl) rfl
  exact ⟨h.1, h.2.2.2.1⟩

/-! ## Init containers and main containers of the template -/

/-- For FE, BE and CN the template has exactly one init container, built from
the directive, when the role's spec carries one, and none otherwise. -/
theorem init_container_FE_BE_CN {Config : Type} (x : Externals Config) (dcr : DorisCluster)
    (componentType : ComponentType) (spec : BaseSpec)
    (hct : componentType = ComponentType.Component_FE ∨
      componentType = ComponentType.Component_BE ∨ componentType = ComponentType.Component_CN)
    (hrole : getBaseSpecFromCluster dcr componentType = some spec) :
    ∃ pts, NewPodTemplateSpec x dcr componentType = some pts ∧
      pts.Spec.InitContainers
        = match spec.SystemInitialization with
          | some si => [newBaseInitContainer "init" si]
          | none => [] := by
  rcases hct with h | h | h <;> subst h <;>
    simp only [getBaseSpecFromCluster, Option.some.injEq] at hrole <;>
    subst hrole <;>
    · unfold NewPodTemplateSpec
      simp only [getBaseSpecFromCluster]
      split <;> rename_i hsi <;> simp [hsi]

/-- C6 (the code departs from the claim). For every cluster, whatever the
system-initialization directive of its Broker spec, the template that
`NewPodTemplateSpec` returns for Broker has no init container: the role
`switch` has no Broker case and leaves `si` nil. On the sample cluster the
Broker spec carries a directive and the template has no init container. -/
theorem NewPodTemplateSpec_Broker_no_init_container {Config : Type} (x : Externals Config)
    (dcr : DorisCluster) :
    (∃ pts, NewPodTemplateSpec x dcr ComponentType.Component_Broker = some pts ∧
        pts.Spec.InitContainers = []) ∧
      sampleCluster.Spec.BrokerSpec.BaseSpec.SystemInitialization
        = some { InitImage := "busybox", Command := ["true"] } ∧
      (NewPodTemplateSpec sampleExternals sampleCluster ComponentType.Component_Broker).map
        (fun pts => pts.Spec.InitContainers.length) = some 0 := by
  refine ⟨⟨_, rfl, rfl⟩, rfl, ?_⟩
  decide

/-- C7, the claim as stated fails: the template of the sample cluster for FE
holds no main container. -/
theorem NewPodTemplateSpec_containers_counterexample :
    (NewPodTemplateSpec sampleExternals sampleCluster ComponentType.Component_FE).map
        (fun pts => pts.Spec.Containers.length) = some 0 ∧
      (NewPodTemplateSpec sampleExternals sampleCluster ComponentType.Component_FE).map
        (fun pts => pts.Spec.Containers.length) ≠ some 1 := by
  decide

/-- C7, amended. For every cluster and every role in FE, BE, CN, Broker,
`NewPodTemplateSpec` returns a template, and that template contains no main
container: its list of containers is empty. -/
theorem NewPodTemplateSpec_no_main_container {Config : Type} (x : Externals Config)
    (dcr : DorisCluster) (componentType : ComponentType) (spec : BaseSpec)
    (hrole : getBaseSpecFromCluster dcr componentType = some spec) :
    ∃ pts, NewPodTemplateSpec x dcr componentType = some pts ∧ pts.Spec.Containers = [] := by
  cases componentType <;>
    simp only [getBaseSpecFromCluster, Option.some.injEq, reduceCtorEq] at hrole <;>
    subst hrole <;>
    · unfold NewPodTemplateSpec
      simp only [getBaseSpecFromCluster]
      split <;> exact ⟨_, rfl, rfl⟩

/-- C7, amended, on the sample cluster and the role BE. -/
theorem NewPodTemplateSpec_no_main_container_witness :
    ∃ pts, NewPodTemplateSpec sampleExternals sampleCluster ComponentType.Component_BE = some pts ∧
      pts.Spec.Containers = [] :=
  NewPodTemplateSpec_no_main_container sampleExternals sampleCluster ComponentType.Component_BE
    sampleCluster.Spec.BeSpec.BaseSpec rfl

/-! ## Probes and the lifecycle hook of the main container -/

/-- C8. For role FE with health port p = `GetPort config HTTP_PORT`, and for
roles BE and CN with p = `GetPort config WEBSERVER_PORT`, whenever p is not
zero the container of `NewBaseMainContainer` has its startup, liveness and
readiness probes set, each an HTTP GET at `/api/health` on the integer port p,
the startup probe with failure threshold 60 and period 5, the liveness and
readiness probes with failure threshold 3 and period 5, and a lifecycle whose
pre-stop hook executes exactly one command, `/opt/apache-doris/fe_prestop.sh`
for FE and `/opt/apache-doris/be_prestop.sh` for BE and CN. -/
theorem health_probes_and_prestop {Config : Type} (x : Externals Config) (dcr : DorisCluster)
    (config : Config) (componentType : ComponentType) (p : Int) (script : String)
    (hrole :
      (componentType = ComponentType.Component_FE ∧ p = x.GetPort config x.HTTP_PORT ∧
          script = "/opt/apache-doris/fe_prestop.sh") ∨
        ((componentType = ComponentType.Component_BE ∨
            componentType = ComponentType.Component_CN) ∧
          p = x.GetPort config x.WEBSERVER_PORT ∧ script = "/opt/apache-doris/be_prestop.sh"))
    (hp : p ≠ 0) :
    (NewBaseMainContainer x dcr config componentType).StartupProbe
        = some
            { ProbeHandler :=
                { HTTPGet := some
                    { Path := "/api/health",
                      Port := { Type_ := IntstrType.Int, IntVal := p, StrVal := "" } } },
              FailureThreshold := 60,
              PeriodSeconds := 5 } ∧
      (NewBaseMainContainer x dcr config componentType).LivenessProbe
        = some
            { ProbeHandler :=
                { HTTPGet := some
                    { Path := "/api/health",
                      Port := { Type_ := IntstrType.Int, IntVal := p, StrVal := "" } } },
              FailureThreshold := 3,
              PeriodSeconds := 5 } ∧
      (NewBaseMainContainer x dcr config componentType).ReadinessProbe
        = some
            { ProbeHandler :=
                { HTTPGet := some
                    { Path := "/api/health",
                      Port := { Type_ := IntstrType.Int, IntVal := p, StrVal := "" } } },
              FailureThreshold := 3,
              PeriodSeconds := 5 } ∧
      (NewBaseMainContainer x dcr config componentType).Lifecycle
        = some { PostStart := none, PreStop := some { Exec := some { Command := [script] } } } := by
  rcases hrole with ⟨hct, hport, hscript⟩ | ⟨hct | hct, hport, hscript⟩ <;>
    subst hct hport hscript <;>
    · simp [NewBaseMainContainer, hp, startupProbe, livenessProbe, readinessProbe, lifeCycle,
        getProbe, HEALTH_API_PATH, FE_PRESTOP, BE_PRESTOP]

/-- C8 on the sample cluster: FE with the HTTP port 8030. -/
theorem health_probes_and_prestop_witness :
    (NewBaseMainContainer sampleExternals sampleCluster [("http_port", 8030)]
        ComponentType.Component_FE).Lifecycle
      = some { PostStart := none,
               PreStop := some { Exec := some { Command := ["/opt/apache-doris/fe_prestop.sh"] } } } :=
  (health_probes_and_prestop sampleExternals sampleCluster [("http_port", 8030)]
    ComponentType.Component_FE 8030 "/opt/apache-doris/fe_prestop.sh"
    (Or.inl ⟨rfl, by decide, rfl⟩) (by decide)).2.2.2

/-- C9. For role Broker with any configuration map, and for role FE, BE or CN
whenever the resolved health port is zero, the container of
`NewBaseMainContainer` has none of the startup probe, the liveness probe, the
readiness probe and the lifecycle hook set: no fallback port is used. -/
theorem no_health_port_no_probes {Config : Type} (x : Externals Config) (dcr : DorisCluster)
    (config : Config) (componentType : ComponentType)
    (hrole :
      componentType = ComponentType.Component_Broker ∨
        (componentType = ComponentType.Component_FE ∧ x.GetPort config x.HTTP_PORT = 0) ∨
        ((componentType = ComponentType.Component_BE ∨
            componentType = ComponentType.Component_CN) ∧
          x.GetPort config x.WEBSERVER_PORT = 0)) :
    (NewBaseMainContainer x dcr config componentType).StartupProbe = none ∧
      (NewBaseMainContainer x dcr config componentType).LivenessProbe = none ∧
      (NewBaseMainContainer x dcr config componentType).ReadinessProbe = none ∧
      (NewBaseMainContainer x dcr config componentType).Lifecycle = none := by
  rcases hrole with hct | ⟨hct, hport⟩ | ⟨hct | hct, hport⟩ <;> subst hct
  · exact ⟨rfl, rfl, rfl, rfl⟩
  all_goals simp [NewBaseMainContainer, hport]

/-- C9 on the sample cluster: Broker with both ports configured, and BE with
no web-server port configured. -/
theorem no_health_port_no_probes_witness :
    (NewBaseMainContainer sampleExternals sampleCluster
        [("http_port", 8030), ("webserver_port", 8040)]
        ComponentType.Component_Broker).StartupProbe = none ∧
      (NewBaseMainContainer sampleExternals sampleCluster [("http_port", 8030)]
        ComponentType.Component_BE).Lifecycle = none :=
  ⟨(no_health_port_no_probes sampleExternals sampleCluster
      [("http_port", 8030), ("webserver_port", 8040)] ComponentType.Component_Broker
      (Or.inl rfl)).1,
    (no_health_port_no_probes sampleExternals sampleCluster [("http_port", 8030)]
      ComponentType.Component_BE (Or.inr (Or.inr ⟨Or.inl rfl, by decide⟩))).2.2.2⟩

/-! ## The baseline environment -/

/-- C10. For every cluster with no admin user, `buildBaseEnvs` contains `USER`
with value `root` and `DORIS_ROOT` with value `/opt/apache-doris`; for every
cluster declaring an admin user with name `a` and non-empty password `p`, it
contains `USER` with value `a`, `PASSWD` with value `p`, and no variable named
`DORIS_ROOT`. When the role declares no overrides, every baseline entry is in
the environment of the main container, and an entry named `DORIS_ROOT` of that
environment is a baseline entry. -/
theorem buildBaseEnvs_admin_user {Config : Type} (x : Externals Config) (dcr : DorisCluster)
    (config : Config) (componentType : ComponentType) :
    (dcr.Spec.AdminUser = none →
        ({ Name := "USER", Value := "root" } : EnvVar) ∈ buildBaseEnvs dcr ∧
          ({ Name := "DORIS_ROOT", Value := "/opt/apache-doris" } : EnvVar) ∈ buildBaseEnvs dcr) ∧
      (∀ a p : String, dcr.Spec.AdminUser = some { Name := a, Password := p } → p ≠ "" →
        ({ Name := "USER", Value := a } : EnvVar) ∈ buildBaseEnvs dcr ∧
          ({ Name := "PASSWD", Value := p } : EnvVar) ∈ buildBaseEnvs dcr ∧
          ∀ e ∈ buildBaseEnvs dcr, e.Name ≠ "DORIS_ROOT") ∧
      (∀ spec, getBaseSpecFromCluster dcr componentType = some spec → spec.EnvVars = [] →
        (∀ e ∈ buildBaseEnvs dcr, e ∈ (NewBaseMainContainer x dcr config componentType).Env) ∧
          ∀ e ∈ (NewBaseMainContainer x dcr config componentType).Env,
            e.Name = "DORIS_ROOT" → e ∈ buildBaseEnvs dcr) := by
  refine ⟨?_, ?_, ?_⟩
  · intro h
    simp [buildBaseEnvs, h, ADMIN_USER, DEFAULT_ADMIN_USER, DORIS_ROOT, DEFAULT_ROOT_PATH]
  · intro a p h hp
    simp [buildBaseEnvs, h, hp, ADMIN_USER, ADMIN_PASSWD, POD_NAME, POD_IP, HOST_IP,
      POD_NAMESPACE]
  · intro spec hrole henv
    have hmerge : mergeEnvs (buildBaseEnvs dcr) spec.EnvVars = buildBaseEnvs dcr := by
      simp [mergeEnvs, henv]
    have hEnv := (NewBaseMainContainer_Env_VolumeMounts x dcr config componentType spec hrole).1
    rw [hmerge] at hEnv
    rw [hEnv]
    constructor
    · intro e he
      split <;> simp [he]
    · intro e he hname
      split at he
      · rcases List.mem_append.mp he with h | h
        · exact h
        · simp only [List.mem_singleton] at h
          rw [h] at hname
          exact absurd hname (by decide)
      · exact he

/-- C10 on the sample cluster with admin user `alice` and password `s3cret`. -/
theorem buildBaseEnvs_admin_user_witness :
    ({ Name := "USER", Value := "alice" } : EnvVar) ∈ buildBaseEnvs sampleAdminCluster ∧
      ({ Name := "PASSWD", Value := "s3cret" } : EnvVar) ∈ buildBaseEnvs sampleAdminCluster ∧
      ∀ e ∈ buildBaseEnvs sampleAdminCluster, e.Name ≠ "DORIS_ROOT" :=
  (buildBaseEnvs_admin_user sampleExternals sampleAdminCluster [] ComponentType.Component_FE).2.1
    "alice" "s3cret" rfl (by decide)

/-- C11. For every cluster that declares an admin user with an empty password,
`buildBaseEnvs` returns the four identity variables followed by `USER` set to
the declared name and nothing else: no variable named `PASSWD` is present. -/
theorem buildBaseEnvs_admin_without_password (dcr : DorisCluster) (a : String)
    (hadmin : dcr.Spec.AdminUser = some { Name := a, Password := "" }) :
    buildBaseEnvs dcr
        = [ { Name := "POD_NAME",
              ValueFrom := some { FieldRef := some { FieldPath := "metadata.name" } } },
            { Name := "POD_IP",
              ValueFrom := some { FieldRef := some { FieldPath := "status.podIP" } } },
            { Name := "HOST_IP",
              ValueFrom := some { FieldRef := some { FieldPath := "status.hostIP" } } },
            { Name := "POD_NAMESPACE",
              ValueFrom := some { FieldRef := some { FieldPath := "metadata.namespace" } } },
            { Name := "USER", Value := a } ] ∧
      ∀ e ∈ buildBaseEnvs dcr, e.Name ≠ "PASSWD" := by
  have heq : buildBaseEnvs dcr
      = [ { Name := "POD_NAME",
            ValueFrom := some { FieldRef := some { FieldPath := "metadata.name" } } },
          { Name := "POD_IP",
            ValueFrom := some { FieldRef := some { FieldPath := "status.podIP" } } },
          { Name := "HOST_IP",
            ValueFrom := some { FieldRef := some { FieldPath := "status.hostIP" } } },
          { Name := "POD_NAMESPACE",
            ValueFrom := some { FieldRef := some { FieldPath := "metadata.namespace" } } },
          { Name := "USER", Value := a } ] := by
    simp [buildBaseEnvs, hadmin, POD_NAME, POD_IP, HOST_IP, POD_NAMESPACE, ADMIN_USER]
  refine ⟨heq, ?_⟩
  rw [heq]
  simp

/-- C11 on the sample cluster whose admin user `alice` has no password. -/
theorem buildBaseEnvs_admin_without_password_witness :
    (buildBaseEnvs sampleNoPasswordCluster).length = 5 ∧
      ∀ e ∈ buildBaseEnvs sampleNoPasswordCluster, e.Name ≠ "PASSWD" := by
  have h := buildBaseEnvs_admin_without_password sampleNoPasswordCluster "alice" rfl
  refine ⟨?_, h.2⟩
  rw [h.1]
  rfl

/-! ## The init container -/

/-- C13. For every system-initialization directive, `newBaseInitContainer`
called with the name `init` returns a container named `init` that is
privileged, runs the directive's command and arguments verbatim, and uses the
directive's image when it is not empty and `alpine:latest` when it is. -/
theorem newBaseInitContainer_privileged (si : SystemInitialization) :
    (newBaseInitContainer "init" si).Name = "init" ∧
      (newBaseInitContainer "init" si).SecurityContext = some { Privileged := some true } ∧
      (newBaseInitContainer "init" si).Command = si.Command ∧
      (newBaseInitContainer "init" si).Args = si.Args ∧
      (si.InitImage ≠ "" → (newBaseInitContainer "init" si).Image = si.InitImage) ∧
      (si.InitImage = "" → (newBaseInitContainer "init" si).Image = "alpine:latest") := by
  refine ⟨rfl, rfl, rfl, rfl, ?_, ?_⟩
  · intro h
    simp [newBaseInitContainer, h]
  · intro h
    simp [newBaseInitContainer, h]

/-- C13 on two directives, one with an image and one without. -/
theorem newBaseInitContainer_privileged_witness :
    (newBaseInitContainer "init" { InitImage := "busybox", Command := ["true"] }).Image
        = "busybox" ∧
      (newBaseInitContainer "init" { Command := ["sysctl"], Args := ["-w"] }).Image
        = "alpine:latest" :=
  ⟨(newBaseInitContainer_privileged { InitImage := "busybox", Command := ["true"] }).2.2.2.2.1
      (by decide),
    (newBaseInitContainer_privileged { Command := ["sysctl"], Args := ["-w"] }).2.2.2.2.2 rfl⟩

/-! ## Idempotence of the merge -/

/-- C14. For all lists `src` and `dst`, merging the baseline `src` a second
time adds nothing: `mergeEnvs src (mergeEnvs src dst) = mergeEnvs src dst`. -/
theorem mergeEnvs_idempotent_in_baseline (src dst : List EnvVar) :
    mergeEnvs src (mergeEnvs src dst) = mergeEnvs src dst := by
  by_cases hs : src = []
  · subst hs
    have h : ∀ l : List EnvVar, mergeEnvs [] l = l := by
      intro l
      cases l <;> simp [mergeEnvs]
    rw [h, h]
  · have hself : mergeEnvs src src = src := by
      rw [mergeEnvs_nonempty src src hs hs]
      have : src.filter (fun e => decide (e.Name ∉ src.map EnvVar.Name)) = [] := by
        rw [List.filter_eq_nil_iff]
        intro e he
        simp only [decide_eq_true_eq, not_not]
        exact List.mem_map.mpr ⟨e, he, rfl⟩
      rw [this, List.append_nil]
    by_cases hd : dst = []
    · subst hd
      have h0 : mergeEnvs src [] = src := by simp [mergeEnvs]
      rw [h0, hself]
    · have hr := mergeEnvs_nonempty src dst hs hd
      have hne : mergeEnvs src dst ≠ [] := by
        rw [hr]
        intro h
        exact hd (List.append_eq_nil.mp h).1
      rw [mergeEnvs_nonempty src (mergeEnvs src dst) hs hne]
      have : src.filter (fun e => decide (e.Name ∉ (mergeEnvs src dst).map EnvVar.Name)) = [] := by
        rw [List.filter_eq_nil_iff]
        intro e he
        simp only [decide_eq_true_eq, not_not]
        rw [hr, List.map_append, List.mem_append]
        by_cases hn : e.Name ∈ dst.map EnvVar.Name
        · exact Or.inl hn
        · refine Or.inr (List.mem_map.mpr ⟨e, ?_, rfl⟩)
          exact List.mem_filter.mpr ⟨he, by simpa using hn⟩
      rw [this, List.append_nil]

/-! ## Default volumes, entrypoint, name and image of a role -/

/-- C12. For every cluster whose spec for the role declares no persistent
volume and has configuration injection inactive: for FE the template has
exactly one volume, an ephemeral one named `fe-meta`, and the main container
exactly one mount, `fe-meta` at `/opt/apache-doris/fe/doris-meta`; for BE
exactly one ephemeral volume `be-storage` and one mount `be-storage` at
`/opt/apache-doris/be/storage`; for CN and Broker the volume list and the
mount list are both empty. -/
theorem default_volumes_and_mounts {Config : Type} (x : Externals Config) (dcr : DorisCluster)
    (config : Config) (componentType : ComponentType) (spec : BaseSpec)
    (hrole : getBaseSpecFromCluster dcr componentType = some spec)
    (hpv : spec.PersistentVolumes = [])
    (hcfg : spec.ConfigMapInfo.ConfigMapName = "" ∨ spec.ConfigMapInfo.ResolveKey = "") :
    ∃ pts, NewPodTemplateSpec x dcr componentType = some pts ∧
      (componentType = ComponentType.Component_FE →
        pts.Spec.Volumes = [{ Name := "fe-meta", VolumeSource := { EmptyDir := some {} } }] ∧
          (NewBaseMainContainer x dcr config componentType).VolumeMounts
            = [{ Name := "fe-meta", MountPath := "/opt/apache-doris/fe/doris-meta" }]) ∧
      (componentType = ComponentType.Component_BE →
        pts.Spec.Volumes = [{ Name := "be-storage", VolumeSource := { EmptyDir := some {} } }] ∧
          (NewBaseMainContainer x dcr config componentType).VolumeMounts
            = [{ Name := "be-storage", MountPath := "/opt/apache-doris/be/storage" }]) ∧
      (componentType = ComponentType.Component_CN ∨
          componentType = ComponentType.Component_Broker →
        pts.Spec.Volumes = [] ∧
          (NewBaseMainContainer x dcr config componentType).VolumeMounts = []) := by
  have hinactive : ¬ (spec.ConfigMapInfo.ConfigMapName ≠ "" ∧ spec.ConfigMapInfo.ResolveKey ≠ "") := by
    rintro ⟨h1, h2⟩
    rcases hcfg with h | h
    · exact h1 h
    · exact h2 h
  have hmounts :=
    (NewBaseMainContainer_without_injection x dcr config componentType spec hrole hinactive).1
  have hvols : newVolumesFromBaseSpec spec = [] := by
    rw [newVolumesFromBaseSpec_eq, hpv]
    rfl
  rw [hmounts]
  cases componentType <;>
    simp only [getBaseSpecFromCluster, Option.some.injEq, reduceCtorEq] at hrole <;>
    subst hrole <;>
    · unfold NewPodTemplateSpec
      simp only [getBaseSpecFromCluster, hinactive, if_false, hvols]
      split <;> refine ⟨_, rfl, ?_⟩ <;>
        simp [buildVolumeMounts, hpv, newDefaultVolume,
          getDefaultVolumesVolumeMountsAndPersistentVolumeClaims,
          getFeDefaultVolumesVolumeMounts, getBeDefaultVolumesVolumeMounts, fe_meta_name,
          fe_meta_path, be_storage_name, be_storage_path]

/-- C12 on the sample cluster: BE declares no persistent volume and names no
resolve key. -/
theorem default_volumes_and_mounts_witness :
    ∃ pts, NewPodTemplateSpec sampleExternals sampleCluster ComponentType.Component_BE = some pts ∧
      pts.Spec.Volumes = [{ Name := "be-storage", VolumeSource := { EmptyDir := some {} } }] ∧
      (NewBaseMainContainer sampleExternals sampleCluster [] ComponentType.Component_BE).VolumeMounts
        = [{ Name := "be-storage", MountPath := "/opt/apache-doris/be/storage" }] := by
  obtain ⟨pts, hpts, _, hbe, _⟩ := default_volumes_and_mounts sampleExternals sampleCluster []
    ComponentType.Component_BE sampleCluster.Spec.BeSpec.BaseSpec rfl rfl (Or.inr rfl)
  exact ⟨pts, hpts, hbe rfl⟩

/-- C15. The entrypoint of the main container is fixed per role:
`NewBaseMainContainer` sets the command `/opt/apache-doris/fe_entrypoint.sh`
for FE and `/opt/apache-doris/be_entrypoint.sh` for BE and for CN, each with
the single argument `$(ENV_FE_ADDR)`, and an empty command and empty arguments
for Broker; for every role tag the container's name is the tag. -/
theorem main_container_entrypoint {Config : Type} (x : Externals Config) (dcr : DorisCluster)
    (config : Config) :
    ((NewBaseMainContainer x dcr config ComponentType.Component_FE).Command
          = ["/opt/apache-doris/fe_entrypoint.sh"] ∧
        (NewBaseMainContainer x dcr config ComponentType.Component_FE).Args
          = ["$(ENV_FE_ADDR)"]) ∧
      ((NewBaseMainContainer x dcr config ComponentType.Component_BE).Command
          = ["/opt/apache-doris/be_entrypoint.sh"] ∧
        (NewBaseMainContainer x dcr config ComponentType.Component_BE).Args
          = ["$(ENV_FE_ADDR)"]) ∧
      ((NewBaseMainContainer x dcr config ComponentType.Component_CN).Command
          = ["/opt/apache-doris/be_entrypoint.sh"] ∧
        (NewBaseMainContainer x dcr config ComponentType.Component_CN).Args
          = ["$(ENV_FE_ADDR)"]) ∧
      ((NewBaseMainContainer x dcr config ComponentType.Component_Broker).Command = [] ∧
        (NewBaseMainContainer x dcr config ComponentType.Component_Broker).Args = []) ∧
      ∀ componentType : ComponentType,
        (NewBaseMainContainer x dcr config componentType).Name
          = ComponentType.string x componentType := by
  refine ⟨?_, ?_, ?_, ?_, ?_⟩
  · unfold NewBaseMainContainer
    constructor <;> simp only [getCommand] <;> split <;> rfl
  · unfold NewBaseMainContainer
    constructor <;> simp only [getCommand] <;> split <;> rfl
  · unfold NewBaseMainContainer
    constructor <;> simp only [getCommand] <;> split <;> rfl
  · exact ⟨rfl, rfl⟩
  · intro componentType
    cases componentType <;> unfold NewBaseMainContainer <;> simp only [] <;>
      first
      | rfl
      | (split <;> rfl)

/-- C16. For every cluster and every role in FE, BE, CN, Broker, the name of
the template returned by `NewPodTemplateSpec` is the cluster name, then `-`,
then the role tag. -/
theorem pod_template_name {Config : Type} (x : Externals Config) (dcr : DorisCluster)
    (componentType : ComponentType) (spec : BaseSpec)
    (hrole : getBaseSpecFromCluster dcr componentType = some spec) :
    ∃ pts, NewPodTemplateSpec x dcr componentType = some pts ∧
      pts.ObjectMeta.Name = dcr.Name ++ "-" ++ ComponentType.string x componentType := by
  cases componentType <;>
    simp only [getBaseSpecFromCluster, Option.some.injEq, reduceCtorEq] at hrole <;>
    subst hrole <;>
    · unfold NewPodTemplateSpec
      simp only [getBaseSpecFromCluster]
      split <;> exact ⟨_, rfl, rfl⟩

/-- C16 on the sample cluster `doris` and the role Broker, whose sample tag is
`broker`. -/
theorem pod_template_name_witness :
    ∃ pts, NewPodTemplateSpec sampleExternals sampleCluster ComponentType.Component_Broker
        = some pts ∧
      pts.ObjectMeta.Name = "doris-broker" := by
  obtain ⟨pts, hpts, hname⟩ := pod_template_name sampleExternals sampleCluster
    ComponentType.Component_Broker sampleCluster.Spec.BrokerSpec.BaseSpec rfl
  refine ⟨pts, hpts, ?_⟩
  rw [hname]
  decide

/-- C17. For every role spec, the image-pull policy of the main container is
`IfNotPresent` when the role spec leaves the pull policy empty and is the role
spec's pull policy verbatim otherwise; the container's image and resource
requirements are the role spec's, unchanged. -/
theorem main_container_image_and_pull_policy {Config : Type} (x : Externals Config)
    (dcr : DorisCluster) (config : Config) (componentType : ComponentType) (spec : BaseSpec)
    (hrole : getBaseSpecFromCluster dcr componentType = some spec) :
    (spec.ImagePullPolicy = "" →
        (NewBaseMainContainer x dcr config componentType).ImagePullPolicy = "IfNotPresent") ∧
      (spec.ImagePullPolicy ≠ "" →
        (NewBaseMainContainer x dcr config componentType).ImagePullPolicy
          = spec.ImagePullPolicy) ∧
      (NewBaseMainContainer x dcr config componentType).Image = spec.Image ∧
      (NewBaseMainContainer x dcr config componentType).Resources
        = spec.ResourceRequirements := by
  have hfields :
      (NewBaseMainContainer x dcr config componentType).ImagePullPolicy
          = getImagePullPolicy spec ∧
        (NewBaseMainContainer x dcr config componentType).Image = spec.Image ∧
        (NewBaseMainContainer x dcr config componentType).Resources
          = spec.ResourceRequirements := by
    cases componentType <;>
      simp only [getBaseSpecFromCluster, Option.some.injEq, reduceCtorEq] at hrole <;>
      subst hrole <;>
      · unfold NewBaseMainContainer
        simp only []
        refine ⟨?_, ?_, ?_⟩ <;>
          first
          | rfl
          | (split <;> rfl)
  obtain ⟨hpolicy, himage, hres⟩ := hfields
  refine ⟨?_, ?_, himage, hres⟩
  · intro h
    rw [hpolicy]
    simp [getImagePullPolicy, h, PullIfNotPresent]
  · intro h
    rw [hpolicy]
    simp [getImagePullPolicy, h]

/-- C17 on the sample clusters: FE leaves the pull policy empty, BE of the
injection sample sets `Always`. -/
theorem main_container_image_and_pull_policy_witness :
    (NewBaseMainContainer sampleExternals sampleCluster [] ComponentType.Component_FE).ImagePullPolicy
        = "IfNotPresent" ∧
      (NewBaseMainContainer sampleExternals sampleInjectionCluster []
        ComponentType.Component_BE).ImagePullPolicy = "Always" :=
  ⟨(main_container_image_and_pull_policy sampleExternals sampleCluster []
      ComponentType.Component_FE sampleCluster.Spec.FeSpec.BaseSpec rfl).1 rfl,
    (main_container_image_and_pull_policy sampleExternals sampleInjectionCluster []
      ComponentType.Component_BE sampleInjectionCluster.Spec.BeSpec.BaseSpec rfl).2.1
      (by decide)⟩

/-! ## Configuration injection when it is active -/

/-- For FE, BE and CN with configuration injection active, the environment of
the main container is the merged environment followed by
`CONFIGMAP_MOUNT_PATH` with value `/etc/doris`, and the mounts are those of
`buildVolumeMounts` followed by a mount named after the configuration source
at `/etc/doris`. -/
theorem config_injection_active_FE_BE_CN {Config : Type} (x : Externals Config)
    (dcr : DorisCluster) (config : Config) (componentType : ComponentType) (spec : BaseSpec)
    (hct : componentType = ComponentType.Component_FE ∨
      componentType = ComponentType.Component_BE ∨ componentType = ComponentType.Component_CN)
    (hrole : getBaseSpecFromCluster dcr componentType = some spec)
    (hactive : spec.ConfigMapInfo.ConfigMapName ≠ "" ∧ spec.ConfigMapInfo.ResolveKey ≠ "") :
    (NewBaseMainContainer x dcr config componentType).Env
        = mergeEnvs (buildBaseEnvs dcr) spec.EnvVars
            ++ [{ Name := "CONFIGMAP_MOUNT_PATH", Value := "/etc/doris" }] ∧
      (NewBaseMainContainer x dcr config componentType).VolumeMounts
        = buildVolumeMounts spec componentType
            ++ [{ Name := spec.ConfigMapInfo.ConfigMapName, MountPath := "/etc/doris" }] := by
  obtain ⟨henv, hmounts⟩ :=
    NewBaseMainContainer_Env_VolumeMounts x dcr config componentType spec hrole
  rw [henv, hmounts, if_pos hactive, if_pos hactive]
  rcases hct with h | h | h <;> subst h <;>
    simp [getConfigVolumeAndVolumeMount, hactive, config_env_name, config_env_path]

/-- C18 (the code departs from the claim). For Broker the mount that
`getConfigVolumeAndVolumeMount` builds never receives a mount path, whatever
the configuration source: on the sample cluster, with injection active for
Broker, the environment of the main container ends with `CONFIGMAP_MOUNT_PATH`
set to `/etc/doris` while the mount named after the configuration source has
the empty mount path. -/
theorem Broker_config_mount_without_path :
    (∀ cmInfo : ConfigMapInfo,
        (getConfigVolumeAndVolumeMount cmInfo ComponentType.Component_Broker).2.MountPath = "") ∧
      sampleInjectionCluster.Spec.BrokerSpec.BaseSpec.ConfigMapInfo
        = { ConfigMapName := "broker-conf", ResolveKey := "broker.conf" } ∧
      (NewBaseMainContainer sampleExternals sampleInjectionCluster []
          ComponentType.Component_Broker).Env.getLast?
        = some { Name := "CONFIGMAP_MOUNT_PATH", Value := "/etc/doris" } ∧
      (NewBaseMainContainer sampleExternals sampleInjectionCluster []
          ComponentType.Component_Broker).VolumeMounts
        = [{ Name := "broker-conf", MountPath := "" }] := by
  refine ⟨?_, rfl, ?_, ?_⟩
  · intro cmInfo
    unfold getConfigVolumeAndVolumeMount
    split <;> rfl
  · decide
  · decide

/-! ## Volumes of the template and mounts of the container -/

/-- For FE and BE the storage volumes of the template and the storage mounts
of the container carry the same names, in the same order. -/
theorem storage_volume_names_eq_mount_names (spec : BaseSpec) (componentType : ComponentType)
    (hct : componentType = ComponentType.Component_FE ∨
      componentType = ComponentType.Component_BE) :
    (if (newVolumesFromBaseSpec spec).length = 0 then newDefaultVolume componentType
        else newVolumesFromBaseSpec spec).map Volume.Name
      = (buildVolumeMounts spec componentType).map VolumeMount.Name := by
  by_cases hpv : spec.PersistentVolumes = []
  · have hvols : newVolumesFromBaseSpec spec = [] := by
      rw [newVolumesFromBaseSpec_eq, hpv]
      rfl
    rw [hvols]
    rcases hct with h | h <;> subst h <;>
      simp [buildVolumeMounts, hpv, newDefaultVolume,
        getDefaultVolumesVolumeMountsAndPersistentVolumeClaims, getFeDefaultVolumesVolumeMounts,
        getBeDefaultVolumesVolumeMounts]
  · have hlen : (newVolumesFromBaseSpec spec).length ≠ 0 := by
      rw [newVolumesFromBaseSpec_eq, List.length_map]
      simpa [List.length_eq_zero] using hpv
    rw [if_neg hlen, buildVolumeMounts_declared spec componentType hpv,
      newVolumesFromBaseSpec_eq]
    simp [List.map_map, Function.comp_def]

/-- The volume and the mount of `getConfigVolumeAndVolumeMount` have the same
name. -/
theorem config_volume_name_eq_mount_name (cmInfo : ConfigMapInfo)
    (componentType : ComponentType) :
    (getConfigVolumeAndVolumeMount cmInfo componentType).1.Name
      = (getConfigVolumeAndVolumeMount cmInfo componentType).2.Name := by
  unfold getConfigVolumeAndVolumeMount
  split
  · cases componentType <;> rfl
  · rfl

/-- C19. For every cluster and for the roles FE and BE, the list of volume
names of the template returned by `NewPodTemplateSpec` equals, element by
element and in the same order, the list of mount names of the container
returned by `NewBaseMainContainer`, whether or not persistent volumes are
declared and whether or not configuration injection is active; hence every
mount refers to a volume of the template. -/
theorem volume_names_match_mount_names {Config : Type} (x : Externals Config)
    (dcr : DorisCluster) (config : Config) (componentType : ComponentType)
    (hct : componentType = ComponentType.Component_FE ∨
      componentType = ComponentType.Component_BE) :
    ∃ pts, NewPodTemplateSpec x dcr componentType = some pts ∧
      pts.Spec.Volumes.map Volume.Name
        = (NewBaseMainContainer x dcr config componentType).VolumeMounts.map VolumeMount.Name ∧
      ∀ m ∈ (NewBaseMainContainer x dcr config componentType).VolumeMounts,
        ∃ v ∈ pts.Spec.Volumes, v.Name = m.Name := by
  have hnames : ∃ pts, NewPodTemplateSpec x dcr componentType = some pts ∧
      pts.Spec.Volumes.map Volume.Name
        = (NewBaseMainContainer x dcr config componentType).VolumeMounts.map
            VolumeMount.Name := by
    rcases hct with h | h <;> subst h
    · have hm := (NewBaseMainContainer_Env_VolumeMounts x dcr config
        ComponentType.Component_FE dcr.Spec.FeSpec.BaseSpec rfl).2
      have hs := storage_volume_names_eq_mount_names dcr.Spec.FeSpec.BaseSpec
        ComponentType.Component_FE (Or.inl rfl)
      have hc := config_volume_name_eq_mount_name dcr.Spec.FeSpec.BaseSpec.ConfigMapInfo
        ComponentType.Component_FE
      rw [hm]
      unfold NewPodTemplateSpec
      simp only [getBaseSpecFromCluster]
      split <;> refine ⟨_, rfl, ?_⟩ <;> dsimp only <;> split <;>
        simp only [List.map_append, List.map_cons, List.map_nil, hs, hc]
    · have hm := (NewBaseMainContainer_Env_VolumeMounts x dcr config
        ComponentType.Component_BE dcr.Spec.BeSpec.BaseSpec rfl).2
      have hs := storage_volume_names_eq_mount_names dcr.Spec.BeSpec.BaseSpec
        ComponentType.Component_BE (Or.inr rfl)
      have hc := config_volume_name_eq_mount_name dcr.Spec.BeSpec.BaseSpec.ConfigMapInfo
        ComponentType.Component_BE
      rw [hm]
      unfold NewPodTemplateSpec
      simp only [getBaseSpecFromCluster]
      split <;> refine ⟨_, rfl, ?_⟩ <;> dsimp only <;> split <;>
        simp only [List.map_append, List.map_cons, List.map_nil, hs, hc]
  obtain ⟨pts, hpts, heq⟩ := hnames
  refine ⟨pts, hpts, heq, ?_⟩
  intro m hm
  have hmem : m.Name ∈ pts.Spec.Volumes.map Volume.Name := by
    rw [heq]
    exact List.mem_map.mpr ⟨m, hm, rfl⟩
  obtain ⟨v, hv, hvn⟩ := List.mem_map.mp hmem
  exact ⟨v, hv, hvn⟩

/-- C19 on the sample cluster: FE declares two persistent volumes and has
configuration injection active. -/
theorem volume_names_match_mount_names_witness :
    ∃ pts, NewPodTemplateSpec sampleExternals sampleCluster ComponentType.Component_FE = some pts ∧
      pts.Spec.Volumes.map Volume.Name
        = (NewBaseMainContainer sampleExternals sampleCluster []
            ComponentType.Component_FE).VolumeMounts.map VolumeMount.Name := by
  obtain ⟨pts, hpts, heq, _⟩ := volume_names_match_mount_names sampleExternals sampleCluster []
    ComponentType.Component_FE (Or.inl rfl)
  exact ⟨pts, hpts, heq⟩

/-! ## Distinct names in the environment of the main container -/

/-- The names of the baseline environment are pairwise distinct and none of
them is `CONFIGMAP_MOUNT_PATH`. -/
theorem buildBaseEnvs_names (dcr : DorisCluster) :
    ((buildBaseEnvs dcr).map EnvVar.Name).Nodup ∧
      "CONFIGMAP_MOUNT_PATH" ∉ (buildBaseEnvs dcr).map EnvVar.Name ∧
      buildBaseEnvs dcr ≠ [] := by
  cases hadmin : dcr.Spec.AdminUser with
  | none =>
    simp [buildBaseEnvs, hadmin, POD_NAME, POD_IP, HOST_IP, POD_NAMESPACE, ADMIN_USER,
      DORIS_ROOT]
  | some adminUser =>
    by_cases hp : adminUser.Password = "" <;>
      simp [buildBaseEnvs, hadmin, hp, POD_NAME, POD_IP, HOST_IP, POD_NAMESPACE, ADMIN_USER,
        ADMIN_PASSWD]

/-- The names of `mergeEnvs src dst` are pairwise distinct when those of `src`
and those of `dst` are, and each of them is a name of `src` or of `dst`. -/
theorem mergeEnvs_names (src dst : List EnvVar) (hsrc : (src.map EnvVar.Name).Nodup)
    (hdst : (dst.map EnvVar.Name).Nodup) :
    ((mergeEnvs src dst).map EnvVar.Name).Nodup ∧
      ∀ n ∈ (mergeEnvs src dst).map EnvVar.Name,
        n ∈ src.map EnvVar.Name ∨ n ∈ dst.map EnvVar.Name := by
  by_cases hd : dst = []
  · have h : mergeEnvs src dst = src := by simp [mergeEnvs, hd]
    rw [h]
    exact ⟨hsrc, fun n hn => Or.inl hn⟩
  · by_cases hs : src = []
    · have h : mergeEnvs src dst = dst := by
        subst hs
        cases dst <;> simp [mergeEnvs]
      rw [h]
      exact ⟨hdst, fun n hn => Or.inr hn⟩
    · rw [mergeEnvs_nonempty src dst hs hd, List.map_append]
      have hsub : ((src.filter (fun e => decide (e.Name ∉ dst.map EnvVar.Name))).map
          EnvVar.Name).Sublist (src.map EnvVar.Name) :=
        List.Sublist.map _ (List.filter_sublist _)
      constructor
      · rw [List.nodup_append]
        refine ⟨hdst, hsub.nodup hsrc, ?_⟩
        rw [List.disjoint_left]
        intro n hn hn2
        obtain ⟨e, he, hen⟩ := List.mem_map.mp hn2
        have hnot := (List.mem_filter.mp he).2
        simp only [decide_eq_true_eq] at hnot
        rw [hen] at hnot
        exact hnot hn
      · intro n hn
        rcases List.mem_append.mp hn with h | h
        · exact Or.inr h
        · exact Or.inl (hsub.subset h)

/-- C20, the claim as stated fails: on the sample cluster FE declares the one
override `CONFIGMAP_MOUNT_PATH` and has configuration injection active; the
environment of the main container then holds that name twice. -/
theorem container_env_names_counterexample :
    (sampleInjectionCluster.Spec.FeSpec.BaseSpec.EnvVars.map EnvVar.Name).Nodup ∧
      (NewBaseMainContainer sampleExternals sampleInjectionCluster []
          ComponentType.Component_FE).Env.map EnvVar.Name
        = ["CONFIGMAP_MOUNT_PATH", "POD_NAME", "POD_IP", "HOST_IP", "POD_NAMESPACE", "USER",
            "DORIS_ROOT", "CONFIGMAP_MOUNT_PATH"] ∧
      ¬ ((NewBaseMainContainer sampleExternals sampleInjectionCluster []
          ComponentType.Component_FE).Env.map EnvVar.Name).Nodup := by
  decide

/-- C20, amended. For every cluster and every role in FE, BE, CN, Broker, if
the names of the role's declared overrides are pairwise distinct and, when
configuration injection is active, none of them is `CONFIGMAP_MOUNT_PATH`, then
the names of the environment of the container returned by
`NewBaseMainContainer` are pairwise distinct. -/
theorem container_env_names_distinct {Config : Type} (x : Externals Config)
    (dcr : DorisCluster) (config : Config) (componentType : ComponentType) (spec : BaseSpec)
    (hrole : getBaseSpecFromCluster dcr componentType = some spec)
    (hdistinct : (spec.EnvVars.map EnvVar.Name).Nodup)
    (hreserved : spec.ConfigMapInfo.ConfigMapName ≠ "" ∧ spec.ConfigMapInfo.ResolveKey ≠ "" →
      "CONFIGMAP_MOUNT_PATH" ∉ spec.EnvVars.map EnvVar.Name) :
    ((NewBaseMainContainer x dcr config componentType).Env.map EnvVar.Name).Nodup := by
  obtain ⟨hbase, hbasecfg, _⟩ := buildBaseEnvs_names dcr
  obtain ⟨hmerged, hsubset⟩ := mergeEnvs_names (buildBaseEnvs dcr) spec.EnvVars hbase hdistinct
  rw [(NewBaseMainContainer_Env_VolumeMounts x dcr config componentType spec hrole).1]
  by_cases hactive : spec.ConfigMapInfo.ConfigMapName ≠ "" ∧ spec.ConfigMapInfo.ResolveKey ≠ ""
  · rw [if_pos hactive, List.map_append, List.nodup_append]
    refine ⟨hmerged, by simp, ?_⟩
    rw [List.disjoint_left]
    intro n hn hn2
    simp only [List.map_cons, List.map_nil, List.mem_singleton] at hn2
    have hn3 : n = "CONFIGMAP_MOUNT_PATH" := hn2
    subst hn3
    rcases hsubset _ hn with h | h
    · exact hbasecfg h
    · exact hreserved hactive h
  · rw [if_neg hactive]
    exact hmerged

/-- C20, amended, on the sample cluster with injection active: BE declares
the one override `TZ`. -/
theorem container_env_names_distinct_witness :
    ((NewBaseMainContainer sampleExternals sampleInjectionCluster []
        ComponentType.Component_BE).Env.map EnvVar.Name).Nodup :=
  container_env_names_distinct sampleExternals sampleInjectionCluster []
    ComponentType.Component_BE sampleInjectionCluster.Spec.BeSpec.BaseSpec rfl (by decide)
    (fun _ => by decide)

end PodResource
